import Mathlib

/-!
Verification of the visual-comparison pipeline in `src/server.js` of the
perfect-pixel-api repository.

The stateless computations of the server (region analysis, severity
classification, viewport clamping, the navigation retry policy, the result
store sweep, and the browser-session lifecycle of the compare endpoint) are
embedded as executable Lean definitions.  JavaScript numbers arising in the
region analysis are modelled by `JSNum`, an exact rational together with the
special values `NaN` and `Infinity` that division by zero produces; machine
buffers are modelled as total functions from byte index to byte value, which
matches the semantics of typed-array indexing used by the code (all accesses
the code performs are in bounds).
-/

/-- JavaScript numeric values produced by the region analysis: a real value
(modelled as an exact rational), or the special values `NaN` and `Infinity`
that the unguarded division `diffCount / cellPixels` can produce. -/
inductive JSNum where
  | nan : JSNum
  | inf : JSNum
  | val : ℚ → JSNum
  deriving DecidableEq

/-- JavaScript strict `<` on numbers: any comparison involving `NaN` is
false, `Infinity` is greater than every real value and not less than
itself. -/
def JSNum.ltB : JSNum → JSNum → Bool
  | .nan, _ => false
  | _, .nan => false
  | .inf, _ => false
  | .val _, .inf => true
  | .val a, .val b => decide (a < b)

/-- JavaScript division of two nonnegative integers: `0 / 0 = NaN`,
`n / 0 = Infinity` for `n > 0`, exact rational division otherwise.
Models `diffCount / cellPixels` at server.js line 513. -/
def jsDivNat (a b : Nat) : JSNum :=
  if b = 0 then (if a = 0 then .nan else .inf) else .val ((a : ℚ) / (b : ℚ))

/-- Multiplication by the constant 100 (`* 100` at server.js line 513);
`NaN` and `Infinity` are absorbing. -/
def jsMul100 : JSNum → JSNum
  | .nan => .nan
  | .inf => .inf
  | .val q => .val (q * 100)

/-- Models the round trip `parseFloat(x.toFixed(1))` (server.js lines
513 and 522): rounding to one decimal digit; `NaN` and `Infinity` are
mapped to themselves (their string forms parse back to the same value). -/
def jsToFixed1 : JSNum → JSNum
  | .nan => .nan
  | .inf => .inf
  | .val q => .val (((round (q * 10) : ℤ) : ℚ) / 10)

/-- `getSeverity` from server.js lines 537-542.  The JavaScript function
receives the `toFixed(1)` string and compares it against number literals,
which coerces it back to the number it denotes, so the argument is the
(rounded) numeric value. -/
def getSeverity (diffPercent : JSNum) : String :=
  if JSNum.ltB diffPercent (.val 1) then "none"
  else if JSNum.ltB diffPercent (.val 5) then "low"
  else if JSNum.ltB diffPercent (.val 15) then "medium"
  else "high"

/-- `getRegionName` from server.js lines 531-535.  Out-of-range indexing of
the band-name arrays yields the string form of `undefined`, as in
JavaScript template interpolation. -/
def getRegionName (gx gy : Nat) : String :=
  let vertical := ["Top", "Upper-middle", "Lower-middle", "Bottom"].getD gy "undefined"
  let horizontal := ["Left", "Center-left", "Center-right", "Right"].getD gx "undefined"
  vertical ++ " " ++ horizontal

/-- The sentinel test at server.js line 507: a pixel is counted when its
RGBA bytes at index `(y * width + x) * 4` satisfy
`r > 200 ∧ g < 100 ∧ b < 100`. -/
def isRedPixel (d : Nat → Nat) (w x y : Nat) : Bool :=
  let idx := (y * w + x) * 4
  decide (200 < d idx) && decide (d (idx + 1) < 100) && decide (d (idx + 2) < 100)

/-- The nested pixel scan of one grid cell (server.js lines 503-511):
count the sentinel-marked pixels with `sx ≤ x < ex` and `sy ≤ y < ey`. -/
def countDiff (d : Nat → Nat) (w sx ex sy ey : Nat) : Nat :=
  ((List.range (ey - sy)).map (fun dy =>
      ((List.range (ex - sx)).filter (fun dx =>
          isRedPixel d w (sx + dx) (sy + dy))).length)).sum

/-- One grid-cell report of `analyzeRegions` (server.js lines 515-524). -/
structure Region where
  position : String
  x : Nat
  y : Nat
  width : Nat
  height : Nat
  diffPixels : Nat
  diffPercent : JSNum
  severity : String

/-- The body of the double loop of `analyzeRegions` (server.js lines
494-525) for grid cell `(gx, gy)`:
`cellWidth = ⌊w / 4⌋`, `startX = gx * cellWidth`,
`endX = min (startX + cellWidth) w`, and analogously for rows; the cell is
scanned, and `diffPercent` is the rounded value of
`diffCount / cellPixels * 100`. -/
def regionFor (d : Nat → Nat) (w h gx gy : Nat) : Region :=
  let cellWidth := w / 4
  let cellHeight := h / 4
  let startX := gx * cellWidth
  let startY := gy * cellHeight
  let endX := min (startX + cellWidth) w
  let endY := min (startY + cellHeight) h
  let cellPixels := (endX - startX) * (endY - startY)
  let diffCount := countDiff d w startX endX startY endY
  let diffPercent := jsToFixed1 (jsMul100 (jsDivNat diffCount cellPixels))
  { position := getRegionName gx gy
    x := startX
    y := startY
    width := endX - startX
    height := endY - startY
    diffPixels := diffCount
    diffPercent := diffPercent
    severity := getSeverity diffPercent }

/-- The `regions` array as built by the loops of `analyzeRegions` before the
final sort: outer loop over rows `gy`, inner loop over columns `gx`
(grid-scan, row-major order). -/
def rowMajorRegions (d : Nat → Nat) (w h : Nat) : List Region :=
  (List.range 4).flatMap (fun gy => (List.range 4).map (fun gx => regionFor d w h gx gy))

/-- Stable insertion of a region into a list sorted by `diffPercent`
descending, using the JavaScript comparator
`(a, b) => b.diffPercent - a.diffPercent`: an element `y` stays in front of
the inserted `x` exactly when `x.diffPercent < y.diffPercent` under
JavaScript comparison semantics (comparisons involving `NaN` are false). -/
def jsInsertDesc (x : Region) : List Region → List Region
  | [] => [x]
  | y :: ys =>
    if JSNum.ltB x.diffPercent y.diffPercent then y :: jsInsertDesc x ys
    else x :: y :: ys

/-- The stable sort performed by `regions.sort((a, b) => b.diffPercent -
a.diffPercent)` at server.js line 528 (`Array.prototype.sort` is stable). -/
def jsSortDesc : List Region → List Region
  | [] => []
  | x :: xs => jsInsertDesc x (jsSortDesc xs)

/-- `analyzeRegions` from server.js lines 488-529: build the 4×4 grid of
region reports in row-major order, then sort by `diffPercent`
descending. -/
def analyzeRegions (d : Nat → Nat) (w h : Nat) : List Region :=
  jsSortDesc (rowMajorRegions d w h)

/-- The ordering the sorted output satisfies between an earlier and a later
element: the earlier `diffPercent` is not smaller under JavaScript
comparison (which is vacuously true when a key is `NaN`, matching the
comparator semantics of `Array.prototype.sort`). -/
def regionGE (a b : Region) : Prop :=
  JSNum.ltB a.diffPercent b.diffPercent = false

/-! ### Result store (server.js lines 42-52 and 254-260) -/

/-- The retention window of the result store: 30 minutes in
milliseconds. -/
def RETENTION_MS : Nat := 30 * 60 * 1000

/-- Inserting a result (server.js line 214): `resultsStore.set(id, value)`
with the creation timestamp stored inside the value.  The store is modelled
as an association list with the most recent insertion in front. -/
def storePut {α : Type} (store : List (String × Nat × α)) (id : String) (t : Nat)
    (v : α) : List (String × Nat × α) :=
  (id, t, v) :: store

/-- The background sweep (server.js lines 45-52): delete every entry whose
age exceeds the retention window, `now - timestamp > 30 * 60 * 1000`
(strict comparison).  Natural subtraction truncates at zero exactly as the
JavaScript comparison is false for entries from the future. -/
def sweepStore {α : Type} (now : Nat) (store : List (String × Nat × α)) :
    List (String × Nat × α) :=
  store.filter (fun e => !decide (RETENTION_MS < now - e.2.1))

/-- `GET /api/result/:id` (server.js lines 254-260): a pure lookup; the
handler performs no age check and does not modify the store. -/
def storeGet {α : Type} (store : List (String × Nat × α)) (id : String) : Option α :=
  (store.find? (fun e => e.1 == id)).map (fun e => e.2.2)

/-! ### Navigation retry and browser-session lifecycle
(server.js lines 60-251) -/

/-- The navigation error causes distinguished by the error-message mapping
of the compare endpoint (server.js lines 232-244). -/
inductive NavErr where
  | dns
  | connRefused
  | connTimedOut
  | navTimeout
  | certError
  | unauthorized
  deriving DecidableEq

/-- Outcome of the navigation stage: whether the fallback attempt was
entered, and the final result. -/
structure NavResult where
  retried : Bool
  outcome : Except NavErr Unit

/-- The navigation logic of server.js lines 111-125: the first `page.goto`
waits for `networkidle2`; its surrounding `catch` is unconditional, so any
failure of the first attempt leads to the single fallback attempt waiting
for the `load` event (followed by a 3s settle delay).  A failure of the
fallback attempt propagates out. -/
def navigateWithRetry (first second : Except NavErr Unit) : NavResult :=
  match first with
  | .ok _ => { retried := false, outcome := .ok () }
  | .error _ => { retried := true, outcome := second }

/-- Whether an `Except` value is an error. -/
def exceptIsError : Except NavErr Unit → Bool
  | .ok _ => false
  | .error _ => true

/-- State of the compare endpoint relevant to the browser-session
lifecycle: whether the local variable `browser` is non-null, whether a
session was ever launched, whether that session is still open, and how
often `browser.close()` was invoked. -/
structure PState where
  browserVar : Bool
  launched : Bool
  sessionOpen : Bool
  closeCalls : Nat

/-- Effect of `await browser.close()` on the lifecycle state. -/
def closeBrowser (s : PState) : PState :=
  { s with sessionOpen := false, closeCalls := s.closeCalls + 1 }

/-- The `try` block of `POST /api/compare` (server.js lines 63-217), with
each fallible external step abstracted by a Boolean success flag and the
two navigation attempts by their outcomes.  A thrown error carries the
lifecycle state at the throw point.  The launch at line 81 opens the
session and assigns `browser`; the close at line 140 closes the session,
and only if it returns normally is `browser` set to `null` at line 141. -/
def compareTryBody (launchOk setupOk : Bool) (nav1 nav2 : Except NavErr Unit)
    (shotOk closeOk procOk : Bool) : Except PState PState :=
  let s0 : PState := { browserVar := false, launched := false, sessionOpen := false, closeCalls := 0 }
  if launchOk = false then .error s0
  else
    let s1 : PState := { browserVar := true, launched := true, sessionOpen := true, closeCalls := 0 }
    if setupOk = false then .error s1
    else
      match (navigateWithRetry nav1 nav2).outcome with
      | .error _ => .error s1
      | .ok _ =>
        if shotOk = false then .error s1
        else
          let s2 := closeBrowser s1
          if closeOk = false then .error s2
          else
            let s3 : PState := { s2 with browserVar := false }
            if procOk = false then .error s3
            else .ok s3

/-- The `catch` block of `POST /api/compare` (server.js lines 218-227): if
the `browser` variable is non-null the session is closed again (errors of
this close are swallowed by the inner `try`). -/
def compareCatch (s : PState) : PState :=
  if s.browserVar then closeBrowser s else s

/-- The whole compare endpoint as a lifecycle computation: run the `try`
body and apply the `catch` handler on the error path. -/
def compareEndpoint (launchOk setupOk : Bool) (nav1 nav2 : Except NavErr Unit)
    (shotOk closeOk procOk : Bool) : PState :=
  match compareTryBody launchOk setupOk nav1 nav2 shotOk closeOk procOk with
  | .ok s => s
  | .error s => compareCatch s

/-! ### Viewport parsing and clamping (server.js lines 75-76) -/

/-- `parseInt(x) || d` followed by nothing below: the parse result is
`none` when the field is absent or does not parse to an integer (`parseInt`
yields `NaN`), and `some n` otherwise; the JavaScript `||` also replaces a
parsed `0` by the default because `0` is falsy. -/
def jsParsedIntOr (p : Option Int) (d : Int) : Int :=
  match p with
  | none => d
  | some n => if n = 0 then d else n

/-- `Math.min(parseInt(width) || 1920, 3840)` at server.js line 75. -/
def viewportWidthOf (p : Option Int) : Int :=
  min (jsParsedIntOr p 1920) 3840

/-- `Math.min(parseInt(height) || 1080, 15000)` at server.js line 76. -/
def viewportHeightOf (p : Option Int) : Int :=
  min (jsParsedIntOr p 1080) 15000

/-! ### Diff engine -/

/-- Absolute difference of one channel value, as an exact rational. -/
def channelDelta (a b : Nat) : ℚ :=
  |(a : ℚ) - (b : ℚ)|

/-- Modelled from the spec: the external `pixelmatch` library (a dependency,
not part of src/) performs a per-pixel structural comparison; §4.3 of the
spec describes the pixel test as a perceptual delta compared against a
threshold given as a fraction of the maximum channel delta.  The delta of a
pixel is modelled as the largest channel difference of its four RGBA
bytes. -/
def pixelDelta (A B : Nat → Nat) (idx : Nat) : ℚ :=
  max (channelDelta (A idx) (B idx))
    (max (channelDelta (A (idx + 1)) (B (idx + 1)))
      (max (channelDelta (A (idx + 2)) (B (idx + 2)))
        (channelDelta (A (idx + 3)) (B (idx + 3)))))

/-- Modelled from the spec: a pixel is a mismatch when its delta exceeds
the threshold fraction of the maximum channel delta (255). -/
def pixelMismatch (A B : Nat → Nat) (threshold : ℚ) (idx : Nat) : Bool :=
  decide (threshold * 255 < pixelDelta A B idx)

/-- Modelled from the spec: the mismatched-pixel count returned by
`pixelmatch`, scanning all `width * height` pixels of two equal-dimension
RGBA buffers. -/
def pixelmatchCount (A B : Nat → Nat) (width height : Nat) (threshold : ℚ) : Nat :=
  ((List.range (width * height)).filter (fun p =>
      pixelMismatch A B threshold (4 * p))).length

/-- The call site at server.js lines 175-182: `pixelmatch` invoked with
`threshold: 0.1`. -/
def pixelmatchCall (A B : Nat → Nat) (width height : Nat) : Nat :=
  pixelmatchCount A B width height (1 / 10)

/-! ### Structural lemmas about the sort and the region list -/

theorem jsInsertDesc_perm (x : Region) (l : List Region) :
    (jsInsertDesc x l).Perm (x :: l) := by
  induction l with
  | nil => exact List.Perm.refl _
  | cons y ys ih =>
    cases hb : JSNum.ltB x.diffPercent y.diffPercent with
    | true =>
      simp only [jsInsertDesc, hb, if_true]
      exact (ih.cons y).trans (List.Perm.swap x y ys)
    | false =>
      simp only [jsInsertDesc, hb, if_false]
      exact List.Perm.refl _

theorem jsSortDesc_perm (l : List Region) : (jsSortDesc l).Perm l := by
  induction l with
  | nil => exact List.Perm.refl _
  | cons x xs ih =>
    exact (jsInsertDesc_perm x (jsSortDesc xs)).trans (ih.cons x)

theorem mem_rowMajorRegions {r : Region} {d : Nat → Nat} {w h : Nat} :
    r ∈ rowMajorRegions d w h ↔
      ∃ gy, gy < 4 ∧ ∃ gx, gx < 4 ∧ r = regionFor d w h gx gy := by
  simp only [rowMajorRegions, List.mem_flatMap, List.mem_map, List.mem_range]
  constructor
  · rintro ⟨gy, hgy, gx, hgx, hr⟩
    exact ⟨gy, hgy, gx, hgx, hr.symm⟩
  · rintro ⟨gy, hgy, gx, hgx, hr⟩
    exact ⟨gy, hgy, gx, hgx, hr.symm⟩

theorem mem_analyzeRegions {r : Region} {d : Nat → Nat} {w h : Nat} :
    r ∈ analyzeRegions d w h ↔ r ∈ rowMajorRegions d w h :=
  (jsSortDesc_perm (rowMajorRegions d w h)).mem_iff

/-! ### Claim C2: navigation retry policy -/

/-- C2 counterexample: a DNS failure of the first navigation attempt does
trigger the retry (and the request then succeeds), because the `catch`
around the first `page.goto` is unconditional; the claim states that a DNS
failure is not retried and is surfaced as an error. -/
theorem navigateWithRetry_dns_retried :
    (navigateWithRetry (Except.error NavErr.dns) (Except.ok ())).retried = true ∧
    (navigateWithRetry (Except.error NavErr.dns) (Except.ok ())).outcome = Except.ok () :=
  ⟨rfl, rfl⟩

/-- C2 amended: every failure of the first navigation attempt, regardless
of its cause (DNS failure, connection refused, timeout, certificate error,
unauthorized), triggers the single retry that waits for the page-load event
followed by the 3s settle delay; an error is surfaced only when the retry
itself fails, and it is the error of the retry. -/
theorem navigateWithRetry_policy (first second : Except NavErr Unit) :
    (navigateWithRetry first second).retried = exceptIsError first ∧
    (navigateWithRetry first second).outcome =
      (if exceptIsError first = true then second else first) := by
  cases first <;> simp [navigateWithRetry, exceptIsError]

/-! ### Claim C3: severity thresholds -/

/-- C3: severity is determined from `diffPercent` by exclusive upper
bounds: below 1 gives "none", from 1 below 5 gives "low", from 5 below 15
gives "medium", and at least 15 gives "high"; in particular the values
exactly 1, 5 and 15 map to "low", "medium" and "high"; and every region
returned by `analyzeRegions` carries the severity computed by `getSeverity`
from its own `diffPercent`. -/
theorem getSeverity_thresholds :
    (∀ q : ℚ, q < 1 → getSeverity (JSNum.val q) = "none") ∧
    (∀ q : ℚ, 1 ≤ q → q < 5 → getSeverity (JSNum.val q) = "low") ∧
    (∀ q : ℚ, 5 ≤ q → q < 15 → getSeverity (JSNum.val q) = "medium") ∧
    (∀ q : ℚ, 15 ≤ q → getSeverity (JSNum.val q) = "high") ∧
    getSeverity (JSNum.val 1) = "low" ∧
    getSeverity (JSNum.val 5) = "medium" ∧
    getSeverity (JSNum.val 15) = "high" ∧
    (∀ (d : Nat → Nat) (w h : Nat), ∀ r ∈ analyzeRegions d w h,
      r.severity = getSeverity r.diffPercent) := by
  refine ⟨?_, ?_, ?_, ?_, ?_, ?_, ?_, ?_⟩
  · intro q hq
    simp [getSeverity, JSNum.ltB, hq]
  · intro q hq1 hq2
    simp [getSeverity, JSNum.ltB, hq2, not_lt.mpr hq1]
  · intro q hq1 hq2
    have h1 : ¬ q < 1 := by linarith
    have h5 : ¬ q < 5 := by linarith
    simp [getSeverity, JSNum.ltB, hq2, h1, h5]
  · intro q hq
    have h1 : ¬ q < 1 := by linarith
    have h5 : ¬ q < 5 := by linarith
    have h15 : ¬ q < 15 := by linarith
    simp [getSeverity, JSNum.ltB, h1, h5, h15]
  · norm_num [getSeverity, JSNum.ltB]
  · norm_num [getSeverity, JSNum.ltB]
  · norm_num [getSeverity, JSNum.ltB]
  · intro d w h r hr
    rcases mem_rowMajorRegions.mp (mem_analyzeRegions.mp hr) with ⟨gy, _, gx, _, rfl⟩
    rfl

/-- Witness for C3 at concrete inputs. -/
theorem getSeverity_thresholds_witness :
    getSeverity (JSNum.val (1 / 2)) = "none" ∧
    getSeverity (JSNum.val 1) = "low" ∧
    getSeverity (JSNum.val 7) = "medium" ∧
    getSeverity (JSNum.val 20) = "high" :=
  ⟨getSeverity_thresholds.1 (1 / 2) (by norm_num),
   getSeverity_thresholds.2.2.2.2.1,
   getSeverity_thresholds.2.2.1 7 (by norm_num) (by norm_num),
   getSeverity_thresholds.2.2.2.1 20 (by norm_num)⟩

/-! ### Claim C5: diff of a buffer against itself -/

/-- C5: comparing any pixel buffer against itself at the threshold the
endpoint uses (0.1) yields a mismatched-pixel count of 0. -/
theorem pixelmatch_self_zero (A : Nat → Nat) (w h : Nat) :
    pixelmatchCall A A w h = 0 := by
  unfold pixelmatchCall pixelmatchCount
  rw [List.length_eq_zero, List.filter_eq_nil_iff]
  intro p _
  simp only [pixelMismatch, pixelDelta, channelDelta, sub_self, abs_zero, max_self,
    decide_eq_true_eq, not_lt]
  norm_num

/-! ### Claim C9: viewport defaults and clamping -/

/-- C9: an absent or unparseable width/height yields the defaults
1920 and 1080; clamping applies only the upper bounds 3840 and 15000, so a
negative parsed integer passes through unchanged. -/
theorem viewport_clamp_defaults :
    viewportWidthOf none = 1920 ∧ viewportHeightOf none = 1080 ∧
    (∀ n : Int, n < 0 → viewportWidthOf (some n) = n ∧ viewportHeightOf (some n) = n) ∧
    (∀ n : Int, 0 < n → viewportWidthOf (some n) = min n 3840 ∧
      viewportHeightOf (some n) = min n 15000) := by
  refine ⟨rfl, rfl, ?_, ?_⟩
  · intro n hn
    have h0 : n ≠ 0 := ne_of_lt hn
    constructor
    · simp only [viewportWidthOf, jsParsedIntOr, h0, if_false]
      exact min_eq_left (by omega)
    · simp only [viewportHeightOf, jsParsedIntOr, h0, if_false]
      exact min_eq_left (by omega)
  · intro n hn
    have h0 : n ≠ 0 := by omega
    constructor
    · simp [viewportWidthOf, jsParsedIntOr, h0]
    · simp [viewportHeightOf, jsParsedIntOr, h0]

/-- Witness for C9 at the concrete input -5. -/
theorem viewport_clamp_defaults_witness :
    viewportWidthOf (some (-5)) = -5 ∧ viewportHeightOf (some (-5)) = -5 :=
  viewport_clamp_defaults.2.2.1 (-5) (by norm_num)

/-! ### Claim C4: result store TTL -/

/-- C4 counterexample: the sweep evicts only entries whose age strictly
exceeds 30 minutes, so a sweep running at exactly T + 30min (here T = 0 and
the sweep time is 1800000 ms, which is "at or after T + 30min") keeps the
entry, and the subsequent get — which performs no age check of its own —
still returns the stored value instead of reporting not-found. -/
theorem resultStore_boundary_sweep :
    storeGet (sweepStore 1800000 (storePut ([] : List (String × Nat × Nat)) "r1" 0 7)) "r1"
      = some 7 := by
  decide

/-- C4 amended: an entry inserted at time T under a fresh id is still
returned by get after any sweep running at a time s with
s ≤ T + 30min (in particular at T + 29min); after a sweep running strictly
later than T + 30min the get reports not-found; and the sweep keeps an
entry exactly when its age is at most the retention window, independent of
anything but the entry's timestamp (reads do not modify the store at
all). -/
theorem resultStore_ttl {α : Type} (store : List (String × Nat × α)) (id : String)
    (T : Nat) (v : α) (s : Nat) (hfresh : ∀ e ∈ store, e.1 ≠ id) :
    (s ≤ T + RETENTION_MS →
      storeGet (sweepStore s (storePut store id T v)) id = some v) ∧
    (T + RETENTION_MS < s →
      storeGet (sweepStore s (storePut store id T v)) id = none) ∧
    (∀ (store2 : List (String × Nat × α)) (e : String × Nat × α),
      e ∈ sweepStore s store2 ↔ e ∈ store2 ∧ s - e.2.1 ≤ RETENTION_MS) := by
  refine ⟨?_, ?_, ?_⟩
  · intro hs
    have hkeep : (!decide (RETENTION_MS < s - T)) = true := by
      simp only [Bool.not_eq_true', decide_eq_false_iff_not, not_lt]
      omega
    simp [storeGet, sweepStore, storePut, List.filter_cons, hkeep, List.find?]
  · intro hs
    have hdrop : (!decide (RETENTION_MS < s - T)) = false := by
      simp only [Bool.not_eq_false', decide_eq_true_eq]
      omega
    simp only [sweepStore, storePut, List.filter_cons, hdrop, if_false]
    rw [storeGet, List.find?_eq_none.mpr, Option.map_none']
    intro e he
    have : e ∈ store := List.mem_of_mem_filter he
    simpa using hfresh e this
  · intro store2 e
    simp only [sweepStore, List.mem_filter, Bool.not_eq_true', decide_eq_false_iff_not,
      not_lt]

/-- Witness for C4: an entry inserted at T = 0 is still found after a sweep
at 29 minutes and is gone after a sweep at 30 minutes plus one
millisecond. -/
theorem resultStore_ttl_witness :
    storeGet (sweepStore 1740000 (storePut ([] : List (String × Nat × Nat)) "r1" 0 7)) "r1"
      = some 7 ∧
    storeGet (sweepStore 1800001 (storePut ([] : List (String × Nat × Nat)) "r1" 0 7)) "r1"
      = none :=
  ⟨(resultStore_ttl [] "r1" 0 7 1740000 (by simp)).1 (by norm_num [RETENTION_MS]),
   (resultStore_ttl [] "r1" 0 7 1800001 (by simp)).2.1 (by norm_num [RETENTION_MS])⟩

/-! ### Claim C8: browser session release -/

/-- C8: on every execution path of the compare endpoint — success, any
navigation failure, and failure of any later pipeline stage — if a browser
session was launched then it is closed before the handler returns: the
session is not open in the final state and `browser.close()` was invoked at
least once. -/
theorem compareEndpoint_releases_session
    (launchOk setupOk : Bool) (nav1 nav2 : Except NavErr Unit)
    (shotOk closeOk procOk : Bool)
    (h : (compareEndpoint launchOk setupOk nav1 nav2 shotOk closeOk procOk).launched = true) :
    (compareEndpoint launchOk setupOk nav1 nav2 shotOk closeOk procOk).sessionOpen = false ∧
    1 ≤ (compareEndpoint launchOk setupOk nav1 nav2 shotOk closeOk procOk).closeCalls := by
  cases launchOk <;> cases setupOk <;> cases shotOk <;> cases closeOk <;> cases procOk <;>
    cases nav1 <;> cases nav2 <;>
      simp_all [compareEndpoint, compareTryBody, compareCatch, closeBrowser, navigateWithRetry]

/-- Witness for C8 on the all-success path. -/
theorem compareEndpoint_releases_session_witness :
    (compareEndpoint true true (Except.ok ()) (Except.ok ()) true true true).sessionOpen = false ∧
    1 ≤ (compareEndpoint true true (Except.ok ()) (Except.ok ()) true true true).closeCalls :=
  compareEndpoint_releases_session true true (Except.ok ()) (Except.ok ()) true true true rfl

/-! ### Geometry of the grid cells -/

theorem cell_end_le (w : Nat) {gx : Nat} (hgx : gx < 4) :
    gx * (w / 4) + w / 4 ≤ w := by
  have h1 : (gx + 1) * (w / 4) ≤ 4 * (w / 4) :=
    Nat.mul_le_mul_right (w / 4) (by omega)
  rw [Nat.succ_mul] at h1
  have h3 : w / 4 * 4 ≤ w := Nat.div_mul_le_self w 4
  calc gx * (w / 4) + w / 4 ≤ 4 * (w / 4) := h1
    _ = w / 4 * 4 := Nat.mul_comm _ _
    _ ≤ w := h3

theorem cell_end_eq (w : Nat) {gx : Nat} (hgx : gx < 4) :
    min (gx * (w / 4) + w / 4) w = gx * (w / 4) + w / 4 :=
  Nat.min_eq_left (cell_end_le w hgx)

/-- Canonical form of a grid cell for in-range grid coordinates: because
`4 * (w / 4) ≤ w`, the `min` in `endX = min (startX + cellWidth) width`
never truncates, so every cell is exactly `⌊w/4⌋ × ⌊h/4⌋` and the trailing
row and column absorb nothing. -/
theorem regionFor_spec (d : Nat → Nat) (w h : Nat) {gx gy : Nat}
    (hgx : gx < 4) (hgy : gy < 4) :
    regionFor d w h gx gy =
      { position := getRegionName gx gy
        x := gx * (w / 4)
        y := gy * (h / 4)
        width := w / 4
        height := h / 4
        diffPixels := countDiff d w (gx * (w / 4)) (gx * (w / 4) + w / 4)
          (gy * (h / 4)) (gy * (h / 4) + h / 4)
        diffPercent := jsToFixed1 (jsMul100 (jsDivNat
          (countDiff d w (gx * (w / 4)) (gx * (w / 4) + w / 4)
            (gy * (h / 4)) (gy * (h / 4) + h / 4)) (w / 4 * (h / 4))))
        severity := getSeverity (jsToFixed1 (jsMul100 (jsDivNat
          (countDiff d w (gx * (w / 4)) (gx * (w / 4) + w / 4)
            (gy * (h / 4)) (gy * (h / 4) + h / 4)) (w / 4 * (h / 4))))) } := by
  simp only [regionFor]
  rw [cell_end_eq w hgx, cell_end_eq h hgy]
  have e1 : gx * (w / 4) + w / 4 - gx * (w / 4) = w / 4 := by omega
  have e2 : gy * (h / 4) + h / 4 - gy * (h / 4) = h / 4 := by omega
  rw [e1, e2]

theorem countDiff_of_ex_eq (d : Nat → Nat) (w sx sy ey : Nat) :
    countDiff d w sx sx sy ey = 0 := by
  unfold countDiff
  apply List.sum_eq_zero
  intro n hn
  rcases List.mem_map.mp hn with ⟨dy, _, rfl⟩
  simp

theorem countDiff_of_ey_eq (d : Nat → Nat) (w sx ex sy : Nat) :
    countDiff d w sx ex sy sy = 0 := by
  unfold countDiff
  simp

theorem countDiff_eq_zero (d : Nat → Nat) (w h sx ex sy ey : Nat)
    (hex : ex ≤ w) (hey : ey ≤ h)
    (hclean : ∀ x y, x < w → y < h → isRedPixel d w x y = false) :
    countDiff d w sx ex sy ey = 0 := by
  unfold countDiff
  apply List.sum_eq_zero
  intro n hn
  rcases List.mem_map.mp hn with ⟨dy, hdy, rfl⟩
  rw [List.length_eq_zero, List.filter_eq_nil_iff]
  intro dx hdx
  have hx : sx + dx < ex := by
    have := List.mem_range.mp hdx
    omega
  have hy : sy + dy < ey := by
    have := List.mem_range.mp hdy
    omega
  simp [hclean (sx + dx) (sy + dy) (by omega) (by omega)]

/-! ### Claim C10: degenerate dimensions -/

/-- C10: when the image width or height is below the grid size 4, integer
division yields a cell width or height of 0, so there is a region whose
bounding box has zero pixels; its `diffPercent` comes from the unguarded
division `0 / 0`, i.e. `NaN`, and `getSeverity` classifies it as
"high". -/
theorem analyzeRegions_degenerate_nan (d : Nat → Nat) (w h : Nat)
    (hwh : w < 4 ∨ h < 4) :
    ∃ r ∈ analyzeRegions d w h,
      r.width * r.height = 0 ∧ r.diffPercent = JSNum.nan ∧ r.severity = "high" := by
  refine ⟨regionFor d w h 0 0, ?_, ?_⟩
  · exact mem_analyzeRegions.mpr
      (mem_rowMajorRegions.mpr ⟨0, by omega, 0, by omega, rfl⟩)
  · rw [regionFor_spec d w h (by omega) (by omega)]
    cases hwh with
    | inl hw =>
      have h4 : w / 4 = 0 := Nat.div_eq_of_lt hw
      simp only [h4, Nat.mul_zero, Nat.add_zero, Nat.zero_mul, Nat.zero_add]
      rw [countDiff_of_ex_eq]
      exact ⟨trivial, rfl, rfl⟩
    | inr hh =>
      have h4 : h / 4 = 0 := Nat.div_eq_of_lt hh
      simp only [h4, Nat.mul_zero, Nat.add_zero, Nat.zero_mul, Nat.zero_add]
      rw [countDiff_of_ey_eq]
      exact ⟨trivial, rfl, rfl⟩

/-- Witness for C10 at a concrete 2×2 buffer. -/
theorem analyzeRegions_degenerate_nan_witness :
    ∃ r ∈ analyzeRegions (fun _ => 0) 2 2,
      r.width * r.height = 0 ∧ r.diffPercent = JSNum.nan ∧ r.severity = "high" :=
  analyzeRegions_degenerate_nan (fun _ => 0) 2 2 (Or.inl (by norm_num))

/-! ### Claim C6: clean diff buffer -/

/-- C6 counterexample: the 2×2 all-zero buffer contains no sentinel-marked
pixel, yet none of the 16 regions has severity "none" (all cells are empty,
their `diffPercent` is `NaN`, and `getSeverity` maps it to "high"), so the
claim fails for diff buffers narrower or shorter than 4 pixels. -/
theorem analyzeRegions_clean_small_high :
    ((List.range 2).all fun y => (List.range 2).all fun x =>
        !isRedPixel (fun _ => 0) 2 x y) = true ∧
    (analyzeRegions (fun _ => 0) 2 2).length = 16 ∧
    (analyzeRegions (fun _ => 0) 2 2).countP (fun r => decide (r.severity = "none")) = 0 := by
  decide

/-- C6 amended: for every diff buffer of width and height at least 4 (so
that every grid cell is nonempty) containing no sentinel-marked pixel,
`analyzeRegions` produces exactly 16 regions, each with `diffPixels = 0`,
`diffPercent = 0.0` and severity "none". -/
theorem analyzeRegions_clean_buffer (d : Nat → Nat) (w h : Nat)
    (hw : 4 ≤ w) (hh : 4 ≤ h)
    (hclean : ∀ x y, x < w → y < h → isRedPixel d w x y = false) :
    (analyzeRegions d w h).length = 16 ∧
    ∀ r ∈ analyzeRegions d w h,
      r.diffPixels = 0 ∧ r.diffPercent = JSNum.val 0 ∧ r.severity = "none" := by
  constructor
  · rw [analyzeRegions, (jsSortDesc_perm (rowMajorRegions d w h)).length_eq]
    rfl
  · intro r hr
    rcases mem_rowMajorRegions.mp (mem_analyzeRegions.mp hr) with ⟨gy, hgy, gx, hgx, rfl⟩
    rw [regionFor_spec d w h hgx hgy]
    have hcd : countDiff d w (gx * (w / 4)) (gx * (w / 4) + w / 4)
        (gy * (h / 4)) (gy * (h / 4) + h / 4) = 0 :=
      countDiff_eq_zero d w h _ _ _ _ (cell_end_le w hgx) (cell_end_le h hgy) hclean
    have hp : w / 4 * (h / 4) ≠ 0 :=
      Nat.mul_ne_zero (Nat.div_pos hw (by omega)).ne' (Nat.div_pos hh (by omega)).ne'
    refine ⟨hcd, ?_, ?_⟩
    · simp [hcd, jsDivNat, hp, jsMul100, jsToFixed1]
    · simp [hcd, jsDivNat, hp, jsMul100, jsToFixed1, getSeverity, JSNum.ltB]

/-- Witness for C6 at the concrete all-zero 4×4 buffer. -/
theorem analyzeRegions_clean_buffer_witness :
    (analyzeRegions (fun _ => 0) 4 4).length = 16 ∧
    ∀ r ∈ analyzeRegions (fun _ => 0) 4 4,
      r.diffPixels = 0 ∧ r.diffPercent = JSNum.val 0 ∧ r.severity = "none" :=
  analyzeRegions_clean_buffer (fun _ => 0) 4 4 (by norm_num) (by norm_num)
    (fun x y _ _ => rfl)

/-! ### Sortedness and stability of the region sort -/

theorem percent_val (a b : Nat) (hb : b ≠ 0) :
    ∃ q, jsToFixed1 (jsMul100 (jsDivNat a b)) = JSNum.val q := by
  rw [jsDivNat, if_neg hb]
  exact ⟨_, rfl⟩

theorem rowMajor_keys_val (d : Nat → Nat) (w h : Nat) (hw : w / 4 ≠ 0) (hh : h / 4 ≠ 0) :
    ∀ r ∈ rowMajorRegions d w h, ∃ q, r.diffPercent = JSNum.val q := by
  intro r hr
  rcases mem_rowMajorRegions.mp hr with ⟨gy, hgy, gx, hgx, rfl⟩
  rcases percent_val
      (countDiff d w (gx * (w / 4)) (gx * (w / 4) + w / 4)
        (gy * (h / 4)) (gy * (h / 4) + h / 4))
      (w / 4 * (h / 4)) (Nat.mul_ne_zero hw hh) with ⟨q, hq⟩
  refine ⟨q, ?_⟩
  rw [regionFor_spec d w h hgx hgy]
  exact hq

theorem rowMajor_keys_nan (d : Nat → Nat) (w h : Nat) (h0 : w / 4 = 0 ∨ h / 4 = 0) :
    ∀ r ∈ rowMajorRegions d w h, r.diffPercent = JSNum.nan := by
  intro r hr
  rcases mem_rowMajorRegions.mp hr with ⟨gy, hgy, gx, hgx, rfl⟩
  rw [regionFor_spec d w h hgx hgy]
  cases h0 with
  | inl hw =>
    simp only [hw, Nat.mul_zero, Nat.add_zero, Nat.zero_mul]
    rw [countDiff_of_ex_eq]
    rfl
  | inr hh =>
    simp only [hh, Nat.mul_zero, Nat.add_zero, Nat.zero_mul]
    rw [countDiff_of_ey_eq]
    rfl

theorem jsInsertDesc_nan (x : Region) (hx : x.diffPercent = JSNum.nan)
    (l : List Region) : jsInsertDesc x l = x :: l := by
  cases l with
  | nil => rfl
  | cons y ys =>
    have hb : JSNum.ltB x.diffPercent y.diffPercent = false := by
      rw [hx]
      cases y.diffPercent <;> rfl
    simp [jsInsertDesc, hb]

theorem jsSortDesc_nan (l : List Region) :
    (∀ r ∈ l, r.diffPercent = JSNum.nan) → jsSortDesc l = l := by
  induction l with
  | nil => intro _; rfl
  | cons x xs ih =>
    intro hl
    simp only [jsSortDesc]
    rw [ih (fun r hr => hl r (List.mem_cons_of_mem x hr))]
    exact jsInsertDesc_nan x (hl x (List.mem_cons_self x xs)) xs

theorem pairwise_nan (l : List Region) :
    (∀ r ∈ l, r.diffPercent = JSNum.nan) → l.Pairwise regionGE := by
  induction l with
  | nil => intro _; exact List.Pairwise.nil
  | cons x xs ih =>
    intro hl
    refine List.pairwise_cons.mpr ⟨?_, ih (fun r hr => hl r (List.mem_cons_of_mem x hr))⟩
    intro z _
    show JSNum.ltB x.diffPercent z.diffPercent = false
    rw [hl x (List.mem_cons_self x xs)]
    cases z.diffPercent <;> rfl

theorem jsInsertDesc_pairwise (x : Region) (l : List Region) :
    (∃ q, x.diffPercent = JSNum.val q) →
    (∀ r ∈ l, ∃ q, r.diffPercent = JSNum.val q) →
    l.Pairwise regionGE → (jsInsertDesc x l).Pairwise regionGE := by
  induction l with
  | nil =>
    intro _ _ _
    exact List.pairwise_singleton _ _
  | cons y ys ih =>
    intro hx hl hp
    rcases hx with ⟨qx, hqx⟩
    rcases hl y (List.mem_cons_self y ys) with ⟨qy, hqy⟩
    rcases List.pairwise_cons.mp hp with ⟨hy, hys⟩
    cases hb : JSNum.ltB x.diffPercent y.diffPercent with
    | true =>
      have hlt : qx < qy := by
        rw [hqx, hqy] at hb
        simpa [JSNum.ltB] using hb
      simp only [jsInsertDesc, hb, if_true]
      refine List.pairwise_cons.mpr
        ⟨?_, ih ⟨qx, hqx⟩ (fun r hr => hl r (List.mem_cons_of_mem y hr)) hys⟩
      intro z hz
      rcases List.mem_cons.mp ((jsInsertDesc_perm x ys).mem_iff.mp hz) with rfl | hz2
      · show JSNum.ltB y.diffPercent z.diffPercent = false
        rw [hqy, hqx]
        simp only [JSNum.ltB, decide_eq_false_iff_not, not_lt]
        linarith
      · exact hy z hz2
    | false =>
      simp only [jsInsertDesc, hb, if_false]
      refine List.pairwise_cons.mpr ⟨?_, hp⟩
      intro z hz
      rcases List.mem_cons.mp hz with rfl | hz2
      · exact hb
      · rcases hl z (List.mem_cons_of_mem y hz2) with ⟨qz, hqz⟩
        have h1 : ¬ qx < qy := by
          rw [hqx, hqy] at hb
          simpa [JSNum.ltB] using hb
        have h2 : ¬ qy < qz := by
          have hyz := hy z hz2
          rw [regionGE, hqy, hqz] at hyz
          simpa [JSNum.ltB] using hyz
        show JSNum.ltB x.diffPercent z.diffPercent = false
        rw [hqx, hqz]
        simp only [JSNum.ltB, decide_eq_false_iff_not, not_lt]
        linarith

theorem jsSortDesc_pairwise (l : List Region) :
    (∀ r ∈ l, ∃ q, r.diffPercent = JSNum.val q) →
    (jsSortDesc l).Pairwise regionGE := by
  induction l with
  | nil => intro _; exact List.Pairwise.nil
  | cons x xs ih =>
    intro hl
    simp only [jsSortDesc]
    refine jsInsertDesc_pairwise x (jsSortDesc xs) (hl x (List.mem_cons_self x xs))
      (fun r hr => hl r (List.mem_cons_of_mem x ((jsSortDesc_perm xs).mem_iff.mp hr)))
      (ih (fun r hr => hl r (List.mem_cons_of_mem x hr)))

theorem jsInsertDesc_filter (x : Region) (k : JSNum) (l : List Region) :
    (∃ q, x.diffPercent = JSNum.val q) →
    (∀ r ∈ l, ∃ q, r.diffPercent = JSNum.val q) →
    (jsInsertDesc x l).filter (fun r => decide (r.diffPercent = k)) =
      (x :: l).filter (fun r => decide (r.diffPercent = k)) := by
  induction l with
  | nil => intro _ _; rfl
  | cons y ys ih =>
    intro hx hl
    cases hb : JSNum.ltB x.diffPercent y.diffPercent with
    | false => simp [jsInsertDesc, hb]
    | true =>
      rcases hx with ⟨qx, hqx⟩
      rcases hl y (List.mem_cons_self y ys) with ⟨qy, hqy⟩
      have hlt : qx < qy := by
        rw [hqx, hqy] at hb
        simpa [JSNum.ltB] using hb
      have hih := ih ⟨qx, hqx⟩ (fun r hr => hl r (List.mem_cons_of_mem y hr))
      by_cases h1 : x.diffPercent = k
      · have h2 : ¬ y.diffPercent = k := by
          rw [hqy]
          rw [hqx] at h1
          intro hcon
          rw [← h1] at hcon
          exact absurd (JSNum.val.inj hcon) (ne_of_gt hlt)
        simp only [jsInsertDesc, hb, if_true]
        simp [List.filter_cons, hih, h1, h2]
      · simp only [jsInsertDesc, hb, if_true]
        simp [List.filter_cons, hih, h1]

theorem jsSortDesc_filter (k : JSNum) (l : List Region) :
    (∀ r ∈ l, ∃ q, r.diffPercent = JSNum.val q) →
    (jsSortDesc l).filter (fun r => decide (r.diffPercent = k)) =
      l.filter (fun r => decide (r.diffPercent = k)) := by
  induction l with
  | nil => intro _; rfl
  | cons x xs ih =>
    intro hl
    simp only [jsSortDesc]
    rw [jsInsertDesc_filter x k (jsSortDesc xs) (hl x (List.mem_cons_self x xs))
        (fun r hr => hl r (List.mem_cons_of_mem x ((jsSortDesc_perm xs).mem_iff.mp hr)))]
    rw [List.filter_cons, List.filter_cons,
      ih (fun r hr => hl r (List.mem_cons_of_mem x hr))]

/-! ### Claim C7: output order of analyzeRegions -/

/-- C7: the output of `analyzeRegions` is a permutation of the row-major
grid-scan list in which no later region has a strictly larger `diffPercent`
than an earlier one (descending order under JavaScript comparison), and for
every key value the regions carrying that `diffPercent` appear in exactly
their grid-scan (row-major) order — the sort is stable. -/
theorem analyzeRegions_sorted_stable (d : Nat → Nat) (w h : Nat) :
    (analyzeRegions d w h).Perm (rowMajorRegions d w h) ∧
    (analyzeRegions d w h).Pairwise regionGE ∧
    ∀ k : JSNum,
      (analyzeRegions d w h).filter (fun r => decide (r.diffPercent = k)) =
        (rowMajorRegions d w h).filter (fun r => decide (r.diffPercent = k)) := by
  refine ⟨jsSortDesc_perm _, ?_, ?_⟩
  · by_cases hw : w / 4 = 0
    · rw [analyzeRegions, jsSortDesc_nan _ (rowMajor_keys_nan d w h (Or.inl hw))]
      exact pairwise_nan _ (rowMajor_keys_nan d w h (Or.inl hw))
    · by_cases hh : h / 4 = 0
      · rw [analyzeRegions, jsSortDesc_nan _ (rowMajor_keys_nan d w h (Or.inr hh))]
        exact pairwise_nan _ (rowMajor_keys_nan d w h (Or.inr hh))
      · exact jsSortDesc_pairwise _ (rowMajor_keys_val d w h hw hh)
  · intro k
    by_cases hw : w / 4 = 0
    · rw [analyzeRegions, jsSortDesc_nan _ (rowMajor_keys_nan d w h (Or.inl hw))]
    · by_cases hh : h / 4 = 0
      · rw [analyzeRegions, jsSortDesc_nan _ (rowMajor_keys_nan d w h (Or.inr hh))]
      · exact jsSortDesc_filter k _ (rowMajor_keys_val d w h hw hh)

/-! ### Claim C1: the grid does not partition the image -/

theorem countP_flatMap {β : Type} (p : β → Bool) (l : List Nat) (f : Nat → List β) :
    (l.flatMap f).countP p = (l.map (fun a => (f a).countP p)).sum := by
  induction l with
  | nil => rfl
  | cons a as ih =>
    rw [List.flatMap_cons, List.countP_append, List.map_cons, List.sum_cons, ih]

theorem countP_grid_row (cw ch x y gy : Nat) :
    List.countP (fun gx => decide (gx * cw ≤ x ∧ x < gx * cw + cw ∧
      gy * ch ≤ y ∧ y < gy * ch + ch)) (List.range 4)
    = if gy * ch ≤ y ∧ y < gy * ch + ch then (if x < 4 * cw then 1 else 0) else 0 := by
  rw [show List.range 4 = [0, 1, 2, 3] from rfl]
  simp only [List.countP_cons, List.countP_nil, decide_eq_true_eq]
  split_ifs <;> omega

theorem countP_grid (cw ch x y : Nat) :
    ((List.range 4).map (fun gy =>
      List.countP (fun gx => decide (gx * cw ≤ x ∧ x < gx * cw + cw ∧
        gy * ch ≤ y ∧ y < gy * ch + ch)) (List.range 4))).sum
    = if x < 4 * cw ∧ y < 4 * ch then 1 else 0 := by
  simp only [countP_grid_row]
  rw [show List.range 4 = [0, 1, 2, 3] from rfl]
  simp only [List.map_cons, List.map_nil, List.sum_cons, List.sum_nil]
  split_ifs <;> omega

/-- For every pixel `(x, y)`, the number of regions of `analyzeRegions`
whose bounding box contains it is 1 exactly when `x < 4 * ⌊w/4⌋` and
`y < 4 * ⌊h/4⌋`, and 0 otherwise: the boxes are pairwise disjoint and their
union is the rectangle `[0, 4⌊w/4⌋) × [0, 4⌊h/4⌋)`, which misses the
trailing `w mod 4` pixel columns and `h mod 4` pixel rows. -/
theorem countP_regions_cover (d : Nat → Nat) (w h x y : Nat) :
    (analyzeRegions d w h).countP
      (fun r => decide (r.x ≤ x ∧ x < r.x + r.width ∧ r.y ≤ y ∧ y < r.y + r.height))
    = if x < 4 * (w / 4) ∧ y < 4 * (h / 4) then 1 else 0 := by
  rw [analyzeRegions, (jsSortDesc_perm (rowMajorRegions d w h)).countP_eq,
    rowMajorRegions, countP_flatMap]
  simp only [List.countP_map]
  have hcongr : ∀ gy ∈ List.range 4,
      List.countP
        ((fun r => decide (r.x ≤ x ∧ x < r.x + r.width ∧ r.y ≤ y ∧ y < r.y + r.height)) ∘
          fun gx => regionFor d w h gx gy) (List.range 4) =
      List.countP (fun gx => decide (gx * (w / 4) ≤ x ∧ x < gx * (w / 4) + w / 4 ∧
        gy * (h / 4) ≤ y ∧ y < gy * (h / 4) + h / 4)) (List.range 4) := by
    intro gy hgy
    apply List.countP_congr
    intro gx hgx
    rw [Function.comp_apply,
      regionFor_spec d w h (List.mem_range.mp hgx) (List.mem_range.mp hgy)]
  rw [List.map_congr_left hcongr]
  exact countP_grid (w / 4) (h / 4) x y

/-- C1 counterexample: the regions do not cover the image when a dimension
is not a multiple of 4.  For a 2×2 diff buffer the 16 bounding boxes are
all empty, so their total area is 0 instead of 4; and for the 101×101
buffer named by the claim, the in-bounds pixel `(100, 100)` lies in none of
the 16 regions (the cells are 25×25 and stop at coordinate 100; the `min`
in the code never lets the last row or column absorb the remainder). -/
theorem analyzeRegions_partition_gap :
    ((analyzeRegions (fun _ => 0) 2 2).map (fun r => r.width * r.height)).sum = 0 ∧
    (analyzeRegions (fun _ => 0) 101 101).countP
      (fun r => decide (r.x ≤ 100 ∧ 100 < r.x + r.width ∧
        r.y ≤ 100 ∧ 100 < r.y + r.height)) = 0 := by
  constructor
  · decide
  · rw [countP_regions_cover]
    norm_num

/-- C1 amended: the 16 regions of `analyzeRegions` are pairwise disjoint,
and their union is exactly the rectangle `[0, 4⌊w/4⌋) × [0, 4⌊h/4⌋)`: each
pixel in that rectangle lies in exactly one region and each pixel outside
it lies in none.  The union therefore equals the full `w × h` image exactly
when both dimensions are multiples of 4; otherwise the last `w mod 4` pixel
columns and `h mod 4` pixel rows are not covered by any region. -/
theorem analyzeRegions_partition (d : Nat → Nat) (w h x y : Nat) :
    (analyzeRegions d w h).countP
      (fun r => decide (r.x ≤ x ∧ x < r.x + r.width ∧ r.y ≤ y ∧ y < r.y + r.height))
    = if x < 4 * (w / 4) ∧ y < 4 * (h / 4) then 1 else 0 :=
  countP_regions_cover d w h x y
